import Mathlib

/-!
Shallow embedding of the Teamup webhook integration (repository
poundsignprojects/teamup-integration) and proofs about it.

The repository contains several near-duplicate Express handlers:
the main file `src/webhook-handler.js` (dispatch-wrapped webhooks, a
regular updater, and a three-step recurring fallback chain), and
`src/unnamed/part_000`, a concatenation of three more variants:
a simple variant (anchor-wrapping regular updater only), a flat
variant (dispatch-wrapped handler whose recurring updater classifies
a 400 `event_overlapping` response before retrying a reduced payload),
and a legacy flat variant (`action`-wrapped handler that PUTs a bare
custom object).

JavaScript objects are embedded as association lists, JavaScript
values probed with truthiness checks as an explicit `JsVal` type with
an `Option` for absent properties, and the outbound axios calls as
response oracles `Nat -> ApiOutcome` indexed by attempt number. Each
updater returns its success boolean together with the list of request
payloads it actually issued, so that claims about which payload shapes
were attempted, and in which order, are statements about that list.
-/

namespace Teamup

/-- JavaScript values as the handler probes them: the event fragments are
duck-typed, so a property is an `Option JsVal` where `none` models an
absent property (`undefined`). -/
inductive JsVal where
  | vnull
  | vbool (b : Bool)
  | vnum (n : Int)
  | vstr (s : String)
deriving DecidableEq, BEq, Repr

/-- JavaScript truthiness of a value: `null`, `false`, `0` and the empty
string are falsy. -/
def truthyVal : JsVal → Bool
  | .vnull => false
  | .vbool b => b
  | .vnum n => n != 0
  | .vstr s => s != ""

/-- JavaScript truthiness of a possibly absent property (`undefined` is
falsy). -/
def truthy : Option JsVal → Bool
  | none => false
  | some v => truthyVal v

/-- JavaScript `String(v)` on the values that reach it here. -/
def jsToString : JsVal → String
  | .vnull => "null"
  | .vbool b => if b then "true" else "false"
  | .vnum n => toString n
  | .vstr s => s

/-- JavaScript `String(v)` where `v` may be `undefined`. -/
def jsToStringOpt : Option JsVal → String
  | none => "undefined"
  | some v => jsToString v

/-- JavaScript `a || b` on possibly absent values: `a` when truthy,
otherwise `b`. -/
def jsOr (a b : Option JsVal) : Option JsVal :=
  if truthy a then a else b

/-- Values stored in the event's custom-field mapping. The provider's
rich-text wrapper `\x7bhtml: s\x7d` is `html s`; a plain string value is
`str s`. -/
inductive FieldVal where
  | html (s : String)
  | str (s : String)
deriving DecidableEq, BEq, Repr

/-- The custom-field mapping of an event: a JavaScript object embedded
as an ordered association list (JavaScript objects have no duplicate
keys). -/
abbrev CustomFields := List (String × FieldVal)

/-- Property read `m[k]` on a custom-field object. -/
def lookupField : CustomFields → String → Option FieldVal
  | [], _ => none
  | (k1, v1) :: rest, k => if k1 = k then some v1 else lookupField rest k

/-- Key list of a custom-field object (`Object.keys`). -/
def keysOf (m : CustomFields) : List String :=
  m.map Prod.fst

/-- Property assignment `m[k] = v` on a custom-field object: overwrites
the existing entry in place, otherwise appends (JavaScript insertion
order). -/
def setField : CustomFields → String → FieldVal → CustomFields
  | [], k, v => [(k, v)]
  | (k1, v1) :: rest, k, v =>
    if k1 = k then (k, v) :: rest else (k1, v1) :: setField rest k v

/-- Embeds `copyCustomFields` of `src/webhook-handler.js` (lines
934-944): a fresh object receiving every key of `customData` when that
is present, and an empty object otherwise. -/
def copyCustomFields : Option CustomFields → CustomFields
  | none => []
  | some m => m

/-- The configured target custom-field name (`CUSTOM_FIELD_NAME`,
`src/webhook-handler.js` line 103). -/
def CUSTOM_FIELD_NAME : String := "zoom_link2"

/-- The custom mapping placed in the update payloads of the main file
and of the flat variant: a copy of the event's custom fields with the
target field overwritten to the rich-text link. -/
def buildCustomFields (custom : Option CustomFields) (zoomLink : String) : CustomFields :=
  setField (copyCustomFields custom) CUSTOM_FIELD_NAME (.html zoomLink)

/-- The sub-calendar to link table `SUB_CALENDAR_ZOOM_LINKS` of
`src/webhook-handler.js` (lines 91-100). -/
def SUB_CALENDAR_ZOOM_LINKS : List (String × String) :=
  [("14098383", "New Coffee Shop: https://zoom.us/j/123456789"),
   ("14098359", "Integrity Group AKA Saturday Morning Workshop<br>\n<a href=\"https://us02web.zoom.us/j/82971629914?pwd=ajZBSkI4bmZjWVZpSXBmenJlMXhUUT09\">https://us02web.zoom.us/j/82971629914?pwd=ajZBSkI4bmZjWVZpSXBmenJlMXhUUT09</a><br>\nMeeting ID: 829 7162 9914<br>\nPasscode: xs11Aw<br>\nCall in +13462487799<br>\nPassword: 836591<br>\nHost code: 983273<br>\nOne tap mobile +13462487799,82971629914,#,#,,836591# US (Houston)"),
   ("14098366", "DJ Zoom: https://zoom.us/j/123456789"),
   ("14156325", "BC Powder: https://zoom.us/j/123456789"),
   ("14098372", "Power Lunch: https://zoom.us/j/123456789"),
   ("14098358", "SWeT Zoom: https://zoom.us/j/123456789"),
   ("14132335", "Soul Train: https://zoom.us/j/123456789"),
   ("14098400", "Sober Lounge: https://zoom.us/j/123456789")]

/-- Property read on the link table (`SUB_CALENDAR_ZOOM_LINKS[key]`),
`undefined` when the key is not configured. -/
def lookupLink : List (String × String) → String → Option String
  | [], _ => none
  | (k1, v1) :: rest, k => if k1 = k then some v1 else lookupLink rest k

/-- Does the character list start with the pattern. -/
def startsWith : List Char → List Char → Bool
  | _, [] => true
  | [], _ :: _ => false
  | c :: cs, d :: ds => c == d && startsWith cs ds

/-- JavaScript `s.includes(pat)` on character lists. -/
def containsSub : List Char → List Char → Bool
  | [], pat => pat.isEmpty
  | c :: rest, pat => startsWith (c :: rest) pat || containsSub rest pat

/-- The segment of `s` before the first occurrence of `pat`, the whole
of `s` when `pat` does not occur: JavaScript `s.split(pat)[0]`. -/
def beforeSub : List Char → List Char → List Char
  | [], _ => []
  | c :: rest, pat =>
    if startsWith (c :: rest) pat then [] else c :: beforeSub rest pat

/-- JavaScript `id.includes('-rid-')`, the recurring-instance marker
test of `src/webhook-handler.js` line 371. -/
def containsRid (s : String) : Bool :=
  containsSub s.toList "-rid-".toList

/-- JavaScript `id.split('-rid-')[0]`, the segment of a compound id
before the instance marker (`src/unnamed/part_000` line 656). -/
def splitRidLeft (s : String) : String :=
  String.mk (beforeSub s.toList "-rid-".toList)

/-- JavaScript `parseInt(s)` restricted to the decimal inputs this
handler feeds it: leading whitespace, an optional sign, then leading
decimal digits; `none` models the `NaN` result when no digit is found. -/
def jsParseInt (s : String) : Option Int :=
  let cs := s.toList.dropWhile (fun c => c.isWhitespace)
  let signAndRest : Int × List Char :=
    match cs with
    | '-' :: rest => (-1, rest)
    | '+' :: rest => (1, rest)
    | other => (1, other)
  let ds := signAndRest.2.takeWhile (fun c => c.isDigit)
  if ds.isEmpty then none
  else some (signAndRest.1 * Int.ofNat (ds.foldl (fun acc c => acc * 10 + (c.toNat - 48)) 0))

/-- The numeric series id extracted by the flat variant
(`src/unnamed/part_000` line 656): `parseInt(eventData.id.split('-rid-')[0])`,
with `none` for the `NaN` of an unparseable prefix. -/
def extractBaseEventId (id : String) : Option Int :=
  jsParseInt (splitRidLeft id)

/-- The configured sub-calendar ids as numbers
(`Object.keys(SUB_CALENDAR_ZOOM_LINKS).map(id => Number(id))`,
`src/webhook-handler.js` line 270; every key is a pure decimal). -/
def ourSubcalendarIds : List Int :=
  SUB_CALENDAR_ZOOM_LINKS.map (fun p => (jsParseInt p.1).getD 0)

/-- Embeds the sub-calendar filtering of `updateEventZoomLink`
(`src/webhook-handler.js` lines 266-284): keep every id not in the
configured table, and the first configured id of the current list when
one exists. -/
def filterSubcalendarIds (current : List Int) : List Int :=
  let managedIds := current.filter (fun i => ourSubcalendarIds.contains i)
  let otherIds := current.filter (fun i => !(ourSubcalendarIds.contains i))
  let keepOneId : List Int :=
    match managedIds with
    | [] => []
    | x :: _ => [x]
  otherIds ++ keepOneId

/-- Canonical inbound event fragment and fetched event details: the
duck-typed JavaScript event object, with `none` for absent properties. -/
structure EventFragment where
  id : String := ""
  series_id : Option JsVal := none
  rrule : Option JsVal := none
  ristart_dt : Option JsVal := none
  start_dt : Option JsVal := none
  end_dt : Option JsVal := none
  title : Option JsVal := none
  subcalendar_id : Option JsVal := none
  subcalendar_ids : Option (List Int) := none
  remote_id : Option JsVal := none
  version : Option JsVal := none
  who : Option JsVal := none
  location : Option JsVal := none
  notes : Option JsVal := none
  tz : Option JsVal := none
  all_day : Option JsVal := none
  custom : Option CustomFields := none
deriving DecidableEq, Repr

/-- One entry of the webhook's `dispatch` array. -/
structure DispatchItem where
  trigger : Option String := none
  event : Option EventFragment := none
deriving DecidableEq, Repr

/-- The update routine the dispatch loop invokes for an event: the
recurring updater receives the whole webhook fragment, the regular
updater the event id (`src/webhook-handler.js` lines 183-189). -/
inductive UpdateCall where
  | recurring (ev : EventFragment) (zoomLink : String)
  | regular (eventId : String) (zoomLink : String)
deriving DecidableEq, Repr

/-- Whether a call chose the recurring-update path. -/
def isRecurringCall : UpdateCall → Bool
  | .recurring _ _ => true
  | .regular _ _ => false

/-- The call the dispatch loop of `src/webhook-handler.js` (lines
137-212) makes for one dispatch item, `none` when the item is skipped:
requires a created/modified trigger, a truthy `subcalendar_id`, and a
configured link; the recurring path is chosen exactly when
`series_id` or `rrule` is truthy (line 150). -/
def chooseCall (trigger : Option String) (ev : EventFragment) : Option UpdateCall :=
  if trigger == some "event.created" || trigger == some "event.modified" then
    if truthy ev.subcalendar_id then
      match lookupLink SUB_CALENDAR_ZOOM_LINKS (jsToStringOpt ev.subcalendar_id) with
      | some zoomLink =>
        if truthy ev.series_id || truthy ev.rrule then
          some (.recurring ev zoomLink)
        else
          some (.regular ev.id zoomLink)
      | none => none
    else none
  else none

/-- Observable outcome of one dispatch item: skipped before any update
attempt, updated with the updater's boolean result, or an updater
exception caught by the per-item `try/catch`. -/
inductive ItemOutcome where
  | skipped
  | updated (ok : Bool)
  | errorCaught (msg : String)
deriving DecidableEq, Repr

/-- The updaters as an oracle: an `Except` result models a thrown
exception. -/
abbrev ExecOracle : Type := UpdateCall → Except String Bool

/-- Processing of one dispatch item: the outcome together with the
update calls made (at most one). An updater exception is caught by the
surrounding `try/catch` (`src/webhook-handler.js` lines 180-198). -/
def processItem (exec : ExecOracle) (item : DispatchItem) : ItemOutcome × List UpdateCall :=
  match item.event with
  | none => (.skipped, [])
  | some ev =>
    match chooseCall item.trigger ev with
    | none => (.skipped, [])
    | some call =>
      match exec call with
      | .ok b => (.updated b, [call])
      | .error msg => (.errorCaught msg, [call])

/-- The body of a dispatch-wrapped webhook request; `none` models a
missing or non-array `dispatch` property. -/
structure WebhookBody where
  dispatch : Option (List DispatchItem) := none
deriving DecidableEq, Repr

/-- What the POST /webhook handler produces: the HTTP status it
responds with, the per-item outcomes, and every update call made. -/
structure HandlerResult where
  status : Nat
  outcomes : List ItemOutcome
  calls : List UpdateCall
deriving DecidableEq, Repr

/-- Embeds the POST /webhook handler of `src/webhook-handler.js`
(lines 119-222): a missing or empty `dispatch` array is acknowledged
with 200, otherwise every dispatch item is processed in order and the
receipt is acknowledged with 200; the outer `try/catch` turns any
escaped exception into a 200 as well, so the handler is a total
function whose status is 200 on every branch. -/
def handleWebhook (exec : ExecOracle) (body : WebhookBody) : HandlerResult :=
  match body.dispatch with
  | none => { status := 200, outcomes := [], calls := [] }
  | some items =>
    if items.isEmpty then { status := 200, outcomes := [], calls := [] }
    else
      let rs := items.map (processItem exec)
      { status := 200
        outcomes := rs.map Prod.fst
        calls := (rs.map Prod.snd).flatten }

/-- Outcome of one outbound axios call: success (2xx) or a failure
carrying the optional response status and optional provider error id
(`none` status models a network failure with no response). -/
inductive ApiOutcome where
  | success
  | failure (status : Option Nat) (errorId : Option String)
deriving DecidableEq, Repr

/-- An update payload sent to the provider; every field the repository's
payload shapes ever populate, with `none` for fields a shape omits. -/
structure RecPayload where
  id : Option String := none
  remote_id : Option JsVal := none
  series_id : Option Int := none
  start_dt : Option JsVal := none
  end_dt : Option JsVal := none
  rrule : Option JsVal := none
  ristart_dt : Option JsVal := none
  redit : Option String := none
  title : Option JsVal := none
  subcalendar_id : Option JsVal := none
  subcalendar_ids : Option (List Int) := none
  custom : CustomFields := []
  version : Option JsVal := none
  who : Option JsVal := none
  location : Option JsVal := none
  notes : Option JsVal := none
  tz : Option JsVal := none
  all_day : Option JsVal := none
deriving DecidableEq, BEq, Repr

/-- The payload shapes of the main file's recurring fallback chain. -/
inductive RecShape where
  | method1
  | method2
  | method3
deriving DecidableEq, BEq, Repr

/-- Method 1 payload of `updateRecurringEventZoomLink`
(`src/webhook-handler.js` lines 404-445): the full shape with the
recurrence rule, the resolved instance anchor
`ristart_dt || start_dt`, and the single-occurrence marker. The `id`
field is the webhook's raw event id; the other fields come from the
fetched event details `d`. -/
def method1Payload (eventDataId : String) (d : EventFragment) (zoomLink : String) : RecPayload :=
  { id := some eventDataId
    start_dt := d.start_dt
    end_dt := d.end_dt
    rrule := d.rrule
    ristart_dt := jsOr d.ristart_dt d.start_dt
    redit := some "single"
    title := d.title
    subcalendar_id := d.subcalendar_id
    custom := buildCustomFields d.custom zoomLink
    version := d.version }

/-- Method 2 payload (`src/webhook-handler.js` lines 466-508): the
remote-id shape without the recurrence rule. -/
def method2Payload (d : EventFragment) (zoomLink : String) : RecPayload :=
  { remote_id := d.remote_id
    ristart_dt := jsOr d.ristart_dt d.start_dt
    start_dt := d.start_dt
    end_dt := d.end_dt
    redit := some "single"
    title := d.title
    subcalendar_id := d.subcalendar_id
    custom := buildCustomFields d.custom zoomLink }

/-- Method 3 payload (`src/webhook-handler.js` lines 530-581): the
minimal body, with the instance identified by query parameters. -/
def method3Payload (d : EventFragment) (zoomLink : String) : RecPayload :=
  { start_dt := d.start_dt
    end_dt := d.end_dt
    title := d.title
    subcalendar_id := d.subcalendar_id
    custom := buildCustomFields d.custom zoomLink
    redit := some "single" }

/-- Embeds the fallback chain of `updateRecurringEventZoomLink` in
`src/webhook-handler.js` (lines 404-604): Method 1 is attempted first;
on any failure whatsoever the chain advances to Method 2 and then
Method 3 (each guarded by the presence of `remote_id` and a truthy
resolved `ristart_dt`; a failed guard throws past the remaining
attempts). The result records the success boolean and the payloads
actually PUT, in order. `resp n` is the provider's response to the
n-th PUT. -/
def updateRecurringMain (eventDataId : String) (d : EventFragment) (zoomLink : String)
    (resp : Nat → ApiOutcome) : Bool × List (RecShape × RecPayload) :=
  let p1 := method1Payload eventDataId d zoomLink
  match resp 0 with
  | .success => (true, [(.method1, p1)])
  | .failure _ _ =>
    if truthy d.remote_id && truthy (jsOr d.ristart_dt d.start_dt) then
      let p2 := method2Payload d zoomLink
      match resp 1 with
      | .success => (true, [(.method1, p1), (.method2, p2)])
      | .failure _ _ =>
        let p3 := method3Payload d zoomLink
        match resp 2 with
        | .success => (true, [(.method1, p1), (.method2, p2), (.method3, p3)])
        | .failure _ _ => (false, [(.method1, p1), (.method2, p2), (.method3, p3)])
    else (false, [(.method1, p1)])

/-- The full payload of the flat variant's recurring updater
(`src/unnamed/part_000` lines 675-717): series id parsed from the
compound id, recurrence fields only when `rrule` is truthy, optional
passthrough fields only when truthy (`all_day` whenever defined). -/
def buildFlatFullPayload (ev : EventFragment) (zoomLink : String) : RecPayload :=
  { id := some ev.id
    series_id := extractBaseEventId ev.id
    start_dt := ev.start_dt
    end_dt := ev.end_dt
    title := jsOr ev.title (some (.vstr ""))
    subcalendar_id := ev.subcalendar_id
    custom := buildCustomFields ev.custom zoomLink
    rrule := if truthy ev.rrule then ev.rrule else none
    redit := if truthy ev.rrule then some "single" else none
    ristart_dt := if truthy ev.rrule && truthy ev.ristart_dt then ev.ristart_dt else none
    all_day := ev.all_day
    tz := if truthy ev.tz then ev.tz else none
    version := if truthy ev.version then ev.version else none
    who := if truthy ev.who then ev.who else none
    location := if truthy ev.location then ev.location else none
    notes := if truthy ev.notes then ev.notes else none }

/-- The reduced no-rule payload the flat variant retries with after a
400 `event_overlapping` response (`src/unnamed/part_000` lines
760-772). -/
def buildFlatMinimalPayload (ev : EventFragment) (zoomLink : String) : RecPayload :=
  { id := some ev.id
    series_id := extractBaseEventId ev.id
    subcalendar_id := ev.subcalendar_id
    custom := buildCustomFields ev.custom zoomLink
    redit := some "single"
    start_dt := if truthy ev.start_dt then ev.start_dt else none
    end_dt := if truthy ev.end_dt then ev.end_dt else none
    title := if truthy ev.title then ev.title else none }

/-- Embeds `updateRecurringEventZoomLink` of the flat variant
(`src/unnamed/part_000` lines 643-807): one PUT of the full payload;
only a failure whose response is exactly a 400 with provider error id
`event_overlapping` triggers the single retry with the reduced
payload; any other failure returns false with no further attempt. -/
def updateRecurringFlat (ev : EventFragment) (zoomLink : String)
    (resp : Nat → ApiOutcome) : Bool × List RecPayload :=
  let pFull := buildFlatFullPayload ev zoomLink
  match resp 0 with
  | .success => (true, [pFull])
  | .failure st err =>
    if st == some 400 && err == some "event_overlapping" then
      let pMin := buildFlatMinimalPayload ev zoomLink
      match resp 1 with
      | .success => (true, [pFull, pMin])
      | .failure _ _ => (false, [pFull, pMin])
    else (false, [pFull])

/-- The regular (non-recurring) update payload of `updateEventZoomLink`
(`src/webhook-handler.js` lines 286-311), built from the fetched event
details `d`: filtered sub-calendar memberships, the copied custom
fields with the target field overwritten, and truthy passthrough
fields (`all_day` whenever defined). -/
def buildRegularUpdatePayload (eventId : String) (d : EventFragment) (zoomLink : String) :
    RecPayload :=
  let finalSubcalendarIds := filterSubcalendarIds (d.subcalendar_ids.getD [])
  { id := some eventId
    start_dt := d.start_dt
    end_dt := d.end_dt
    title := d.title
    subcalendar_id := (finalSubcalendarIds.head?).map (fun n => JsVal.vnum n)
    subcalendar_ids := some finalSubcalendarIds
    custom := buildCustomFields d.custom zoomLink
    who := if truthy d.who then d.who else none
    location := if truthy d.location then d.location else none
    notes := if truthy d.notes then d.notes else none
    tz := if truthy d.tz then d.tz else none
    all_day := d.all_day }

/-- The payload of `tryCompleteUpdate` (`src/webhook-handler.js` lines
616-651): when `rrule` is truthy it sets the instance anchor
`ristart_dt` to the event's plain `start_dt`, even when the fragment
carries its own `ristart_dt`. -/
def buildCompleteUpdatePayload (ev : EventFragment) (zoomLink : String) : RecPayload :=
  { id := some ev.id
    title := ev.title
    start_dt := ev.start_dt
    end_dt := ev.end_dt
    subcalendar_id := ev.subcalendar_id
    custom := buildCustomFields ev.custom zoomLink
    rrule := if truthy ev.rrule then ev.rrule else none
    ristart_dt := if truthy ev.rrule then ev.start_dt else none
    redit := if truthy ev.rrule then some "single" else none
    who := if truthy ev.who then ev.who else none
    tz := if truthy ev.tz then ev.tz else none
    all_day := ev.all_day }

/-- The anchor-wrapped link of the simple variant
(`src/unnamed/part_000` line 233): the configured link is embedded in
an HTML anchor before being stored. -/
def zoomLinkHtmlWrap (zoomLink : String) : String :=
  "<a href=\"" ++ zoomLink ++ "\" target=\"_blank\" rel=\"noreferrer noopener external\">"
    ++ zoomLink ++ "</a>"

/-- The custom object PUT by the simple variant's `updateEventZoomLink`
(`src/unnamed/part_000` lines 236-241): a fresh object holding only
the target field, whose value is the rich-text wrapper around the
anchor-wrapped link. -/
def buildSimpleVariantCustom (zoomLink : String) : CustomFields :=
  setField [] CUSTOM_FIELD_NAME (.html (zoomLinkHtmlWrap zoomLink))

/-- The custom object PUT by the legacy flat variant's
`updateEventZoomLink` (`src/unnamed/part_000` lines 1002-1006): the
bare link string under the key `zoom link`, with no rich-text
wrapper. -/
def buildFlatLegacyCustom (zoomLink : String) : CustomFields :=
  [("zoom link", FieldVal.str zoomLink)]

/-- A benign updater oracle: every update call reports success. -/
def execOk : ExecOracle := fun _ => .ok true

/-- Provider oracle answering every attempt with success. -/
def respOkAll : Nat → ApiOutcome := fun _ => ApiOutcome.success

/-- Provider oracle answering every attempt with a 401 auth
rejection. -/
def respAuth : Nat → ApiOutcome :=
  fun _ => ApiOutcome.failure (some 401) (some "no_permission")

/-- Provider oracle answering every attempt with a 403 auth
rejection. -/
def respForbidden : Nat → ApiOutcome :=
  fun _ => ApiOutcome.failure (some 403) (some "no_permission")

/-- Provider oracle: an overlap rejection of the first attempt, success
on any later attempt. -/
def respOverlapThenOk : Nat → ApiOutcome :=
  fun n =>
    if n == 0 then ApiOutcome.failure (some 400) (some "event_overlapping")
    else ApiOutcome.success

/-- A webhook fragment whose id carries the instance marker but which
has neither `series_id` nor `rrule`, on a managed sub-calendar. -/
def evRidOnly : EventFragment :=
  { id := "500-rid-1700000000", subcalendar_id := some (.vnum 14156325) }

/-- A recurring webhook fragment (`series_id` present) on a managed
sub-calendar. -/
def evRec2 : EventFragment :=
  { id := "600", series_id := some (.vnum 600), subcalendar_id := some (.vnum 14098366) }

/-- A fragment on a managed sub-calendar whose `subcalendar_id` is the
number 0 (falsy). -/
def ev10 : EventFragment :=
  { id := "42", subcalendar_id := some (.vnum 0) }

/-- A dispatch item carrying `ev10` under a matching trigger. -/
def item10 : DispatchItem :=
  { trigger := some "event.created", event := some ev10 }

/-- Fetched event details of a recurring instance with the remote-id
fields present, used against the auth-rejecting provider. -/
def dAuth : EventFragment :=
  { id := "911-rid-1700000000"
    remote_id := some (.vstr "rem-911")
    ristart_dt := some (.vstr "2025-03-01T10:00:00")
    start_dt := some (.vstr "2025-03-01T10:00:00")
    end_dt := some (.vstr "2025-03-01T11:00:00")
    subcalendar_id := some (.vnum 14156325) }

/-- A recurring webhook fragment for the flat variant's updater. -/
def evW3 : EventFragment :=
  { id := "700-rid-5"
    rrule := some (.vstr "FREQ=DAILY")
    start_dt := some (.vstr "2025-04-01T12:00:00")
    end_dt := some (.vstr "2025-04-01T13:00:00")
    subcalendar_id := some (.vnum 14098372) }

/-- Fetched event details carrying the fields Method 2 needs. -/
def d4 : EventFragment :=
  { id := "77-rid-1"
    remote_id := some (.vstr "rem-77")
    ristart_dt := some (.vstr "2025-02-01T09:00:00")
    start_dt := some (.vstr "2025-02-01T09:00:00")
    subcalendar_id := some (.vnum 14098358) }

/-- A recurring fragment whose explicit `ristart_dt` differs from its
plain `start_dt`. -/
def d5 : EventFragment :=
  { id := "500-rid-1700000000"
    rrule := some (.vstr "FREQ=WEEKLY")
    ristart_dt := some (.vstr "2025-01-08T10:00:00")
    start_dt := some (.vstr "2025-01-01T10:00:00") }

/-- A fragment with no `ristart_dt`, only a plain start time. -/
def d5b : EventFragment :=
  { id := "501", start_dt := some (.vstr "2025-01-02T10:00:00") }

/-- A recurring fragment whose compound id has a non-numeric segment
before the instance marker. -/
def ev6 : EventFragment :=
  { id := "abc-rid-123"
    rrule := some (.vstr "FREQ=DAILY")
    title := some (.vstr "T")
    start_dt := some (.vstr "2025-05-01T10:00:00")
    end_dt := some (.vstr "2025-05-01T11:00:00")
    subcalendar_id := some (.vnum 14156325) }

theorem lookupField_setField_self (m : CustomFields) (k : String) (v : FieldVal) :
    lookupField (setField m k v) k = some v := by
  induction m with
  | nil => simp [setField, lookupField]
  | cons p rest ih =>
    obtain ⟨k1, v1⟩ := p
    by_cases h : k1 = k
    · simp [setField, h, lookupField]
    · simp [setField, h, lookupField, ih]

theorem lookupField_setField_ne (m : CustomFields) (k k2 : String) (v : FieldVal)
    (h : k2 ≠ k) : lookupField (setField m k v) k2 = lookupField m k2 := by
  induction m with
  | nil => simp [setField, lookupField, Ne.symm h]
  | cons p rest ih =>
    obtain ⟨k1, v1⟩ := p
    by_cases h1 : k1 = k
    · subst h1
      simp [setField, lookupField, Ne.symm h]
    · by_cases h2 : k1 = k2
      · simp [setField, h1, lookupField, h2, h]
      · simp [setField, h1, lookupField, h2, ih]

theorem mem_keysOf_setField (m : CustomFields) (k k2 : String) (v : FieldVal) :
    k2 ∈ keysOf (setField m k v) ↔ k2 ∈ keysOf m ∨ k2 = k := by
  induction m with
  | nil =>
    show k2 ∈ [k] ↔ k2 ∈ ([] : List String) ∨ k2 = k
    simp
  | cons p rest ih =>
    obtain ⟨k1, v1⟩ := p
    by_cases h : k1 = k
    · subst h
      have hs : setField ((k1, v1) :: rest) k1 v = (k1, v) :: rest := by
        simp [setField]
      rw [hs]
      show k2 ∈ k1 :: keysOf rest ↔ k2 ∈ k1 :: keysOf rest ∨ k2 = k1
      simp only [List.mem_cons]
      tauto
    · have hs : setField ((k1, v1) :: rest) k v = (k1, v1) :: setField rest k v := by
        simp [setField, h]
      rw [hs]
      show k2 ∈ k1 :: keysOf (setField rest k v) ↔ k2 ∈ k1 :: keysOf rest ∨ k2 = k
      simp only [List.mem_cons]
      rw [ih]
      tauto

theorem processItem_calls (exec : ExecOracle) (t : Option String) (ev : EventFragment) :
    (processItem exec ⟨t, some ev⟩).2 = (chooseCall t ev).toList := by
  cases hc : chooseCall t ev with
  | none => simp [processItem, hc]
  | some call => cases hx : exec call <;> simp [processItem, hc, hx]

theorem chooseCall_recurringCall (t : Option String) (ev : EventFragment) (c : UpdateCall)
    (h : chooseCall t ev = some c) :
    isRecurringCall c = (truthy ev.series_id || truthy ev.rrule) := by
  unfold chooseCall at h
  split at h
  · split at h
    · split at h
      · split at h
        · rename_i hrec
          injection h with h2
          subst h2
          simp [isRecurringCall, hrec]
        · rename_i hrec
          injection h with h2
          subst h2
          have hf : (truthy ev.series_id || truthy ev.rrule) = false := by
            cases hb : (truthy ev.series_id || truthy ev.rrule)
            · rfl
            · exact absurd hb hrec
          simp [isRecurringCall, hf]
      · simp_all
    · simp_all
  · simp_all

theorem chooseCall_id_irrel (t : Option String) (ev : EventFragment) (s : String) :
    ((chooseCall t { ev with id := s }).toList).map isRecurringCall
      = ((chooseCall t ev).toList).map isRecurringCall := by
  obtain ⟨i0, sid, rr, ri, st, en, ti, sc, scs, rem, ver, wh, lo, no, tz0, ad, cu⟩ := ev
  cases h1 : (t == some "event.created" || t == some "event.modified") <;>
    cases h2 : truthy sc <;>
      cases hl : lookupLink SUB_CALENDAR_ZOOM_LINKS (jsToStringOpt sc) <;>
        cases h4 : (truthy sid || truthy rr) <;>
          simp [chooseCall, h1, h2, hl, h4, isRecurringCall]

theorem chooseCall_none_of_falsy (t : Option String) (ev : EventFragment)
    (h : truthy ev.subcalendar_id = false) : chooseCall t ev = none := by
  unfold chooseCall
  rw [h]
  simp

/-- C1: for every source event custom-field mapping, the custom mapping
placed in the update payloads (built by `copyCustomFields` followed by
the target-field assignment, as in `updateEventZoomLink` and every
other payload builder of `src/webhook-handler.js`) preserves every key
different from the target name with its value unchanged, maps the
target name to the link content, and contains no key beyond the
original keys and the target name. -/
theorem c1_custom_fields_preserved (m : CustomFields) (zoomLink k : String) :
    (k ≠ CUSTOM_FIELD_NAME →
      lookupField (buildCustomFields (some m) zoomLink) k = lookupField m k)
    ∧ lookupField (buildCustomFields (some m) zoomLink) CUSTOM_FIELD_NAME
        = some (FieldVal.html zoomLink)
    ∧ (k ∈ keysOf (buildCustomFields (some m) zoomLink)
        ↔ k ∈ keysOf m ∨ k = CUSTOM_FIELD_NAME) := by
  refine ⟨fun h => ?_, ?_, ?_⟩
  · exact lookupField_setField_ne m CUSTOM_FIELD_NAME k (.html zoomLink) h
  · exact lookupField_setField_self m CUSTOM_FIELD_NAME (.html zoomLink)
  · exact mem_keysOf_setField m CUSTOM_FIELD_NAME k (.html zoomLink)

/-- Witness for C1 at a concrete one-key mapping. -/
theorem c1_custom_fields_preserved_witness :
    lookupField (buildCustomFields (some [("contact", FieldVal.str "Ann")]) "L1") "contact"
      = lookupField [("contact", FieldVal.str "Ann")] "contact" :=
  (c1_custom_fields_preserved [("contact", FieldVal.str "Ann")] "L1" "contact").1 (by decide)

/-- C2 counterexample: a dispatch item whose event id contains the
instance marker but which has neither `series_id` nor `rrule` is sent
down the regular (non-recurring) update path, so the claimed
equivalence (recurring iff the id contains the marker OR a series or
rule field is present) is false at this input: the marker is present
yet the path chosen is not the recurring one. -/
theorem c2_marker_only_goes_regular_cx :
    containsRid evRidOnly.id = true
    ∧ (processItem execOk ⟨some "event.modified", some evRidOnly⟩).2.map isRecurringCall
        = [false] := by
  decide

/-- C2 amended: the dispatch loop classifies an event as recurring and
chooses the recurring-update path exactly when `series_id` or `rrule`
is truthy; the instance marker in the id plays no part in the choice
(the chosen path is unchanged under any replacement of the id). -/
theorem c2_recurring_path_iff_series_or_rrule (exec : ExecOracle) (t : Option String)
    (ev : EventFragment) (s : String) (c : UpdateCall)
    (h : (processItem exec ⟨t, some ev⟩).2 = [c]) :
    isRecurringCall c = (truthy ev.series_id || truthy ev.rrule)
    ∧ (processItem exec ⟨t, some { ev with id := s }⟩).2.map isRecurringCall
        = (processItem exec ⟨t, some ev⟩).2.map isRecurringCall := by
  constructor
  · have hc := processItem_calls exec t ev
    rw [h] at hc
    cases hcc : chooseCall t ev with
    | none => rw [hcc] at hc; simp at hc
    | some c2 =>
      rw [hcc] at hc
      simp at hc
      rw [hc]
      exact chooseCall_recurringCall t ev c2 hcc
  · rw [processItem_calls, processItem_calls]
    exact chooseCall_id_irrel t ev s

/-- Witness for C2 at a concrete recurring fragment. -/
theorem c2_recurring_path_iff_series_or_rrule_witness :
    isRecurringCall (UpdateCall.recurring evRec2 "DJ Zoom: https://zoom.us/j/123456789")
      = (truthy evRec2.series_id || truthy evRec2.rrule)
    ∧ (processItem execOk ⟨some "event.modified", some { evRec2 with id := "x" }⟩).2.map
          isRecurringCall
        = (processItem execOk ⟨some "event.modified", some evRec2⟩).2.map isRecurringCall :=
  c2_recurring_path_iff_series_or_rrule execOk (some "event.modified") evRec2 "x"
    (UpdateCall.recurring evRec2 "DJ Zoom: https://zoom.us/j/123456789") (by decide)

/-- C8: the POST /webhook handler responds with HTTP status 200 on
every request body and under every updater behaviour, including
updaters that throw (the `Except.error` results of the oracle): all
internal failures are caught and reduced to logged outcomes. -/
theorem c8_handler_always_200 (exec : ExecOracle) (body : WebhookBody) :
    (handleWebhook exec body).status = 200 := by
  unfold handleWebhook
  cases body.dispatch with
  | none => rfl
  | some items =>
    by_cases h : items.isEmpty <;> simp [h]

/-- C3 counterexample: against a provider that rejects every attempt
with a 401 auth error, the main file's recurring chain does not stop
after the failed first attempt: it goes on to PUT the Method 2 and
Method 3 payload shapes before returning failure, so the claim that a
non-overlap, non-validation failure terminates the chain immediately
with no alternative shape attempted is false at this input. -/
theorem c3_main_chain_retries_after_auth_cx :
    (updateRecurringMain "911-rid-1700000000" dAuth "L" respAuth).1 = false
    ∧ (updateRecurringMain "911-rid-1700000000" dAuth "L" respAuth).2.map Prod.fst
        = [RecShape.method1, RecShape.method2, RecShape.method3] := by
  decide

/-- C3 amended: in the flat variant's recurring updater, any failure of
the first attempt other than an HTTP 400 with provider error id
`event_overlapping` (in particular auth, network and not-found
failures) returns failure immediately, with the full payload as the
only attempt; the main file's chain instead advances to its
alternative shapes on any failure. -/
theorem c3_flat_nonoverlap_fails_immediately (ev : EventFragment) (zoomLink : String)
    (resp : Nat → ApiOutcome) (st : Option Nat) (err : Option String)
    (h0 : resp 0 = ApiOutcome.failure st err)
    (hno : ¬(st = some 400 ∧ err = some "event_overlapping")) :
    updateRecurringFlat ev zoomLink resp = (false, [buildFlatFullPayload ev zoomLink]) := by
  have hcond : (st == some 400 && err == some "event_overlapping") = false := by
    cases hb : (st == some 400 && err == some "event_overlapping")
    · rfl
    · rw [Bool.and_eq_true, beq_iff_eq, beq_iff_eq] at hb
      exact absurd hb hno
  unfold updateRecurringFlat
  rw [h0]
  simp [hcond]

/-- Witness for C3 at a concrete fragment and a 403 provider. -/
theorem c3_flat_nonoverlap_fails_immediately_witness :
    updateRecurringFlat evW3 "L" respForbidden
      = (false, [buildFlatFullPayload evW3 "L"]) :=
  c3_flat_nonoverlap_fails_immediately evW3 "L" respForbidden (some 403)
    (some "no_permission") rfl (by decide)

/-- C4: in the main file's recurring chain, when the first (full,
Method 1) attempt fails with a 400 `event_overlapping` response and
the second (no-rule, Method 2) attempt succeeds, the chain returns
success having attempted exactly Method 1 then Method 2; the minimal
Method 3 shape is never attempted. -/
theorem c4_overlap_then_norule_success_stops (eventDataId : String) (d : EventFragment)
    (zoomLink : String) (resp : Nat → ApiOutcome)
    (hrem : truthy d.remote_id = true)
    (hri : truthy (jsOr d.ristart_dt d.start_dt) = true)
    (h0 : resp 0 = ApiOutcome.failure (some 400) (some "event_overlapping"))
    (h1 : resp 1 = ApiOutcome.success) :
    (updateRecurringMain eventDataId d zoomLink resp).1 = true
    ∧ (updateRecurringMain eventDataId d zoomLink resp).2.map Prod.fst
        = [RecShape.method1, RecShape.method2] := by
  unfold updateRecurringMain
  rw [h0, hrem, hri, h1]
  simp

/-- Witness for C4 at a concrete fragment and an overlap-then-success
provider. -/
theorem c4_overlap_then_norule_success_stops_witness :
    (updateRecurringMain "77-rid-1" d4 "L" respOverlapThenOk).1 = true
    ∧ (updateRecurringMain "77-rid-1" d4 "L" respOverlapThenOk).2.map Prod.fst
        = [RecShape.method1, RecShape.method2] :=
  c4_overlap_then_norule_success_stops "77-rid-1" d4 "L" respOverlapThenOk
    (by decide) (by decide) rfl rfl

/-- C10: a dispatch item whose event has a falsy `subcalendar_id`
(absent, null, 0, the empty string, or false) triggers no update call;
processing a dispatch list starting with such an item makes exactly
the calls of the remaining items; and a `subcalendar_id` of 0 is
processed identically to an absent one. -/
theorem c10_falsy_subcalendar_skipped (exec : ExecOracle) (item : DispatchItem)
    (ev : EventFragment) (rest : List DispatchItem)
    (hev : item.event = some ev) (hfalsy : truthy ev.subcalendar_id = false) :
    (processItem exec item).2 = []
    ∧ (handleWebhook exec { dispatch := some (item :: rest) }).calls
        = (handleWebhook exec { dispatch := some rest }).calls
    ∧ processItem exec { item with event := some { ev with subcalendar_id := some (.vnum 0) } }
        = processItem exec { item with event := some { ev with subcalendar_id := none } } := by
  have hchoose := chooseCall_none_of_falsy item.trigger ev hfalsy
  have hskip : (processItem exec item).2 = [] := by
    simp [processItem, hev, hchoose]
  refine ⟨hskip, ?_, ?_⟩
  · cases rest with
    | nil => simp [handleWebhook, hskip]
    | cons r rs => simp [handleWebhook, hskip]
  · have h1 := chooseCall_none_of_falsy item.trigger
      { ev with subcalendar_id := some (.vnum 0) } (by rfl)
    have h2 := chooseCall_none_of_falsy item.trigger
      { ev with subcalendar_id := none } (by rfl)
    simp [processItem, h1, h2]

/-- Witness for C10 at a concrete item whose `subcalendar_id` is 0. -/
theorem c10_falsy_subcalendar_skipped_witness :
    (processItem execOk item10).2 = []
    ∧ (handleWebhook execOk { dispatch := some [item10] }).calls
        = (handleWebhook execOk { dispatch := some [] }).calls
    ∧ processItem execOk { item10 with event := some { ev10 with subcalendar_id := some (.vnum 0) } }
        = processItem execOk { item10 with event := some { ev10 with subcalendar_id := none } } :=
  c10_falsy_subcalendar_skipped execOk item10 ev10 [] rfl (by decide)

/-- C5 counterexample: the fragment `d5` carries an explicit
`ristart_dt` different from its `start_dt`, yet the payload built by
`tryCompleteUpdate` anchors the instance at `start_dt`, so the claim
that the resolved anchor equals `ristart_dt` exactly whenever that
field is present is false at this input (and no timestamp is ever
decoded from the id's instance-marker suffix anywhere in the code). -/
theorem c5_complete_update_ignores_ristart_cx :
    (buildCompleteUpdatePayload d5 "L").ristart_dt = d5.start_dt
    ∧ ((buildCompleteUpdatePayload d5 "L").ristart_dt == d5.ristart_dt) = false := by
  decide

/-- C5 amended: in `updateRecurringEventZoomLink` of the main file the
resolved instance anchor is `ristart_dt` when truthy and the plain
`start_dt` otherwise; the anchor never depends on the raw id (no
timestamp is decoded from the instance-marker suffix); and in
`tryCompleteUpdate` the anchor is always the plain `start_dt`, even
when an explicit `ristart_dt` is present. -/
theorem c5_anchor_priority_amended (eventDataId eventDataId2 : String) (d : EventFragment)
    (zoomLink : String) (s : String) :
    (truthy d.ristart_dt = true →
      (method1Payload eventDataId d zoomLink).ristart_dt = d.ristart_dt)
    ∧ (truthy d.ristart_dt = false →
      (method1Payload eventDataId d zoomLink).ristart_dt = d.start_dt)
    ∧ (method1Payload eventDataId d zoomLink).ristart_dt
        = (method1Payload eventDataId2 { d with id := s } zoomLink).ristart_dt
    ∧ (truthy d.rrule = true →
      (buildCompleteUpdatePayload d zoomLink).ristart_dt = d.start_dt) := by
  refine ⟨fun h => ?_, fun h => ?_, ?_, fun h => ?_⟩
  · simp [method1Payload, jsOr, h]
  · simp [method1Payload, jsOr, h]
  · rfl
  · simp [buildCompleteUpdatePayload, h]

/-- Witness for C5 at fragments with and without `ristart_dt`. -/
theorem c5_anchor_priority_amended_witness :
    (method1Payload "e1" d5 "L").ristart_dt = d5.ristart_dt
    ∧ (method1Payload "e1" d5b "L").ristart_dt = d5b.start_dt
    ∧ (buildCompleteUpdatePayload d5 "L").ristart_dt = d5.start_dt :=
  ⟨(c5_anchor_priority_amended "e1" "e2" d5 "L" "s").1 (by decide),
   (c5_anchor_priority_amended "e1" "e2" d5b "L" "s").2.1 (by decide),
   (c5_anchor_priority_amended "e1" "e2" d5 "L" "s").2.2.2 (by decide)⟩

/-- C6: the flat variant's series-id extraction
`parseInt(eventData.id.split('-rid-')[0])` on the malformed id
`abc-rid-123` yields `NaN` (here `none`); no error is surfaced: the
updater still builds its payload with that `NaN` series id and issues
the PUT, which the provider here accepts, so the update silently
proceeds instead of failing with a malformed-identifier error as the
specification requires. -/
theorem c6_malformed_id_silently_proceeds :
    extractBaseEventId "abc-rid-123" = none
    ∧ (buildFlatFullPayload ev6 "L").series_id = none
    ∧ updateRecurringFlat ev6 "L" respOkAll = (true, [buildFlatFullPayload ev6 "L"]) := by
  decide

/-- C7 counterexample: for the current membership list
`[99, 14156325, 14098383]` the builder's final sub-calendar set is
`[99, 14156325]`: it keeps the first managed id of the list, so when
the webhook was triggered by the managed sub-calendar 14098383 (a
configured key of the link table) the triggering id is not in the
final set, refuting the claim that the retained managed id is the one
that triggered the update. -/
theorem c7_trigger_not_kept_cx :
    filterSubcalendarIds [99, 14156325, 14098383] = [99, 14156325]
    ∧ (lookupLink SUB_CALENDAR_ZOOM_LINKS "14098383").isSome = true
    ∧ ((filterSubcalendarIds [99, 14156325, 14098383]).contains 14098383) = false := by
  decide

/-- C7 amended: the final sub-calendar set of the non-recurring builder
keeps every id not in the configured link table (unchanged, in order)
and at most one configured id, namely the first configured id of the
event's current membership list when one exists; never two or more
configured ids. The kept configured id is determined by the membership
order alone, not by which sub-calendar triggered the update. -/
theorem c7_subcalendar_filter_amended (cur : List Int) :
    (filterSubcalendarIds cur).filter (fun i => !(ourSubcalendarIds.contains i))
        = cur.filter (fun i => !(ourSubcalendarIds.contains i))
    ∧ (filterSubcalendarIds cur).filter (fun i => ourSubcalendarIds.contains i)
        = (cur.filter (fun i => ourSubcalendarIds.contains i)).take 1 := by
  unfold filterSubcalendarIds
  cases hM : cur.filter (fun i => ourSubcalendarIds.contains i) with
  | nil =>
    constructor
    · simp [List.filter_append, List.filter_filter]
    · simp [hM, List.filter_append, List.filter_filter]
  | cons x xs =>
    have hx : ourSubcalendarIds.contains x = true := by
      have hmem : x ∈ cur.filter (fun i => ourSubcalendarIds.contains i) := by
        rw [hM]
        exact List.mem_cons_self x xs
      exact (List.mem_filter.mp hmem).2
    have hx2 : x ∈ ourSubcalendarIds := by simpa using hx
    constructor
    · simp [hM, List.filter_append, List.filter_filter, hx, hx2]
    · simp [hM, List.filter_append, List.filter_filter, hx, hx2]

/-- C9 counterexample: the simple variant stores the link wrapped in an
HTML anchor rather than verbatim, and the legacy flat variant stores
the bare link string with no rich-text wrapper at all, so the claim
that every update payload's target custom-field value is exactly the
rich-text object around the configured link verbatim is false on
those payloads. -/
theorem c9_wrapped_or_raw_cx :
    lookupField (buildSimpleVariantCustom "https://zoom.us/j/123456789") CUSTOM_FIELD_NAME
      = some (FieldVal.html (zoomLinkHtmlWrap "https://zoom.us/j/123456789"))
    ∧ (FieldVal.html (zoomLinkHtmlWrap "https://zoom.us/j/123456789")
        == FieldVal.html "https://zoom.us/j/123456789") = false
    ∧ lookupField (buildFlatLegacyCustom "https://zoom.us/j/123456789") "zoom link"
      = some (FieldVal.str "https://zoom.us/j/123456789") := by
  decide

/-- C9 amended: in every update payload of the main file
(`updateEventZoomLink`, the three recurring methods, and
`tryCompleteUpdate`) and of the flat variant's recurring updater, the
target custom field's value is exactly the rich-text object around the
configured link text verbatim; only the simple variant (which wraps
the link in an anchor first) and the legacy flat variant (which stores
the bare string under another key) deviate. -/
theorem c9_html_verbatim_amended (custom : Option CustomFields) (zoomLink : String)
    (eventId : String) (d : EventFragment) :
    lookupField (buildCustomFields custom zoomLink) CUSTOM_FIELD_NAME
        = some (FieldVal.html zoomLink)
    ∧ lookupField (method1Payload eventId d zoomLink).custom CUSTOM_FIELD_NAME
        = some (FieldVal.html zoomLink)
    ∧ lookupField (method2Payload d zoomLink).custom CUSTOM_FIELD_NAME
        = some (FieldVal.html zoomLink)
    ∧ lookupField (method3Payload d zoomLink).custom CUSTOM_FIELD_NAME
        = some (FieldVal.html zoomLink)
    ∧ lookupField (buildRegularUpdatePayload eventId d zoomLink).custom CUSTOM_FIELD_NAME
        = some (FieldVal.html zoomLink)
    ∧ lookupField (buildCompleteUpdatePayload d zoomLink).custom CUSTOM_FIELD_NAME
        = some (FieldVal.html zoomLink)
    ∧ lookupField (buildFlatFullPayload d zoomLink).custom CUSTOM_FIELD_NAME
        = some (FieldVal.html zoomLink)
    ∧ lookupField (buildFlatMinimalPayload d zoomLink).custom CUSTOM_FIELD_NAME
        = some (FieldVal.html zoomLink) := by
  have base : ∀ c : Option CustomFields,
      lookupField (buildCustomFields c zoomLink) CUSTOM_FIELD_NAME
        = some (FieldVal.html zoomLink) := fun c =>
    lookupField_setField_self (copyCustomFields c) CUSTOM_FIELD_NAME (.html zoomLink)
  exact ⟨base custom, base d.custom, base d.custom, base d.custom, base d.custom,
    base d.custom, base d.custom, base d.custom⟩

end Teamup
